import Mathlib

/-!
# Connectivity dashboard (`networkmonitor-ui/src/App.js`)

A shallow embedding of the non-rendering logic of the `App` component:

* `fetchLogs`: one poll of the log endpoint, with the `localStorage` fallback;
* `statusEffect`: the effect that turns a change of the latest status message
  into a toast;
* `dangerBanner`, `successBanner`: the two banner conditions;
* `chartData`, `tableRows`: the two projections of the snapshot.

React state (`logs`), the ref (`prevStatusMessage`) and `localStorage` are
passed explicitly. What the environment decides (how the request ends, whether
the write to `localStorage` returns or throws) is an argument of `fetchLogs`.
The effect, the banners and the projections are given for a `logs` value that
is a list of records, the only kind of value the endpoint sends when its body
parses.
-/

namespace NetworkMonitor

/-! ## Data model -/

/-- One element of the array returned by `GET /api/logs`. The component reads
exactly these seven fields. `signalStrength`, `ipAddress` and `networkType`
may be nullish (`null` or missing), which is `none` here. -/
structure LogRecord where
  id : Nat
  connected : Bool
  timestamp : String
  ipAddress : Option String
  networkType : Option String
  signalStrength : Option Int
  statusMessage : String
  deriving DecidableEq, Repr

/-- The value of the `logs` state: the records in the order of the response. -/
abbrev Snapshot := List LogRecord

/-! ## localStorage -/

/-- The value of `response.data` of a resolved request, which is also what the
`logs` state and the cache hold. With the default settings axios parses the
body of a 2xx response as JSON and, when the body does not parse, hands the
body over as it came, a text, without throwing. The component does not look
at the value before it stores it. -/
inductive Payload where
  | list (records : Snapshot)
  | raw (text : String)
  deriving DecidableEq, Repr

/-- The key under which the component keeps its cache. -/
def cacheKey : String := "cachedLogs"

/-- The contents of `localStorage`, as far as the component uses it. The browser
keeps a text per key; the component only ever writes `JSON.stringify` of a
payload and only reads through `JSON.parse`, so the embedding keeps, per key,
the payload that the stored text denotes. `none` is the `null` that `getItem`
returns for a key never written. The text written for a payload is never the
empty string (it starts with a bracket or a quote), so the test `if (cached)`
of the source is the test for presence. -/
abbrev Storage := String → Option Payload

/-- The call `localStorage.getItem(key)` followed by `JSON.parse`. -/
def Storage.getItem (st : Storage) (key : String) : Option Payload :=
  st key

/-- The call `localStorage.setItem(key, JSON.stringify(value))` when it
returns. -/
def Storage.setItem (st : Storage) (key : String) (value : Payload) : Storage :=
  fun k => if k = key then some value else st k

/-- A storage in which no key was ever written. -/
def Storage.empty : Storage := fun _ => none

/-! ## Poller -/

/-- How `await axios.get(...)` ends: it resolves with `response.data` (a 2xx
response, whether or not its body parsed), or it throws (network error,
timeout, status outside 2xx). -/
inductive Response where
  | resolved (data : Payload)
  | rejected
  deriving DecidableEq, Repr

/-- How the call `localStorage.setItem(...)` ends: it returns, or it throws
(the browser refuses the write, as with `QuotaExceededError` when the text
does not fit the quota) and then the storage is as it was. -/
inductive WriteResult where
  | returned
  | threw
  deriving DecidableEq, Repr

/-- What a poll reads and writes: the `logs` state and `localStorage`. -/
structure PollState where
  logs : Payload
  storage : Storage

/-- The state of a freshly mounted component: `useState([])`. The storage is
whatever the browser kept from earlier page loads. -/
def PollState.init (storage : Storage) : PollState :=
  { logs := .list [], storage := storage }

/-- The `catch` block of `fetchLogs`.

```js
const cached = localStorage.getItem("cachedLogs");
if (cached) { setLogs(JSON.parse(cached)); }
``` -/
def catchBlock (s : PollState) : PollState :=
  match s.storage.getItem cacheKey with
  | some cached => { s with logs := cached }
  | none => s

/-- The body of `fetchLogs`, given how the request and the write end. The
`try` block has two statements after the request, `setLogs` and `setItem`, in
this order, so a write that throws enters the `catch` block after `logs` was
set; `w` is not looked at when the request throws.

```js
try {
  const response = await axios.get(url);
  setLogs(response.data);
  localStorage.setItem("cachedLogs", JSON.stringify(response.data));
} catch (error) {
  const cached = localStorage.getItem("cachedLogs");
  if (cached) { setLogs(JSON.parse(cached)); }
}
``` -/
def fetchLogs (r : Response) (w : WriteResult) (s : PollState) : PollState :=
  match r with
  | .resolved data =>
      match w with
      | .returned => { logs := data, storage := s.storage.setItem cacheKey data }
      | .threw => catchBlock { s with logs := data }
  | .rejected => catchBlock s

/-- The polls of a timer run, oldest first. -/
def runPolls (rs : List (Response × WriteResult)) (s : PollState) : PollState :=
  rs.foldl (fun acc r => fetchLogs r.1 r.2 acc) s

/-! ## Transition notifier -/

/-- The method `String.prototype.toLowerCase`, on the letters `A`..`Z`. The
browser also lowers letters outside ASCII; the result has an ASCII letter
only for U+212A (to `k`) and U+0130 (to `i` followed by U+0307), and neither
can be part of an occurrence of "lost", "disconnected" or "restored", so the
three searches of `statusEffect` see the same answer. -/
def toLowerCase (s : String) : String :=
  String.mk (s.data.map Char.toLower)

/-- Whether `pat` starts the character list `cs`. -/
def startsWithChars : List Char → List Char → Bool
  | [], _ => true
  | _ :: _, [] => false
  | p :: ps, c :: cs => p == c && startsWithChars ps cs

/-- Whether `pat` occurs in the character list `cs`. -/
def includesChars (pat : List Char) : List Char → Bool
  | [] => pat.isEmpty
  | c :: cs => startsWithChars pat (c :: cs) || includesChars pat cs

/-- The method `String.prototype.includes`. -/
def includes (s pat : String) : Bool :=
  includesChars pat.data s.data

/-- The two toast calls of the component: `toast.error` announces a lost
connection, `toast.success` a restored one. -/
inductive ToastKind where
  | error
  | success
  deriving DecidableEq, Repr

/-- One call `toast.error(text)` or `toast.success(text)`. -/
structure Toast where
  kind : ToastKind
  text : String
  deriving DecidableEq, Repr

/-- The template literal of the error toast. -/
def errorText (r : LogRecord) : String :=
  "⚠️ " ++ r.statusMessage ++ " at " ++ r.timestamp

/-- The template literal of the success toast. -/
def successText (r : LogRecord) : String :=
  "✅ " ++ r.statusMessage ++ " at " ++ r.timestamp

/-- The body of the effect on `[logs]`. The first component is
`prevStatusMessage.current` (`none` is `null`) after the effect, the second
the toasts it raised.

```js
if (logs.length > 0) {
  const latest = logs[logs.length - 1];
  if (prev.current !== null && prev.current !== latest.statusMessage) {
    if (lower.includes("lost") || lower.includes("disconnected")) toast.error(..);
    else if (lower.includes("restored")) toast.success(..);
  }
  prev.current = latest.statusMessage;
}
``` -/
def statusEffect (prev : Option String) (logs : Snapshot) : Option String × List Toast :=
  match logs.getLast? with
  | none => (prev, [])
  | some latest =>
      let toasts : List Toast :=
        match prev with
        | none => []
        | some p =>
            if p ≠ latest.statusMessage then
              if includes (toLowerCase latest.statusMessage) "lost" ||
                  includes (toLowerCase latest.statusMessage) "disconnected" then
                [{ kind := .error, text := errorText latest }]
              else if includes (toLowerCase latest.statusMessage) "restored" then
                [{ kind := .success, text := successText latest }]
              else []
            else []
      (some latest.statusMessage, toasts)

/-! ## Banners -/

/-- The condition of the `alert-danger` banner:
`logs.length > 0 && !logs[logs.length - 1].connected`. -/
def dangerBanner (logs : Snapshot) : Bool :=
  match logs.getLast? with
  | none => false
  | some latest => !latest.connected

/-- The condition of the `alert-success` banner:
`logs.length > 0 && logs[logs.length - 1].statusMessage === "Connection restored"`. -/
def successBanner (logs : Snapshot) : Bool :=
  match logs.getLast? with
  | none => false
  | some latest => latest.statusMessage == "Connection restored"

/-! ## View projections -/

/-- The `labels` and the `data` of the single dataset of `chartData`. -/
structure ChartData where
  labels : List String
  data : List Int
  deriving DecidableEq, Repr

/-- The object `chartData`. The label is
`new Date(log.timestamp).toLocaleTimeString()`, which depends on the locale of
the browser and is a parameter here; the value is `log.signalStrength ?? 0`. -/
def chartData (toLocaleTimeString : String → String) (logs : Snapshot) : ChartData :=
  { labels := logs.map (fun log => toLocaleTimeString log.timestamp)
    data := logs.map (fun log => log.signalStrength.getD 0) }

/-- What a table cell holds: a number, a text, or nothing (React renders
`null` and `undefined` as an empty cell). -/
inductive Cell where
  | number (n : Int)
  | text (s : String)
  | blank
  deriving DecidableEq, Repr

/-- The cell of an optional text field. -/
def Cell.ofText : Option String → Cell
  | some s => .text s
  | none => .blank

/-- One `<tr>` of the table, the seven `<td>` in column order. -/
structure TableRow where
  id : Cell
  connected : Cell
  timestamp : Cell
  ipAddress : Cell
  networkType : Cell
  signalStrength : Cell
  statusMessage : Cell
  deriving DecidableEq, Repr

/-- The cell `{log.signalStrength ?? "-"}`. -/
def signalCell : Option Int → Cell
  | some n => .number n
  | none => .text "-"

/-- The row that `logs.map((log) => <tr>...</tr>)` builds for one record. -/
def tableRow (log : LogRecord) : TableRow :=
  { id := .number log.id
    connected := .text (if log.connected then "Yes" else "No")
    timestamp := .text log.timestamp
    ipAddress := Cell.ofText log.ipAddress
    networkType := Cell.ofText log.networkType
    signalStrength := signalCell log.signalStrength
    statusMessage := .text log.statusMessage }

/-- The rows of `<tbody>`. -/
def tableRows (logs : Snapshot) : List TableRow :=
  logs.map tableRow

/-! ## Sample data -/

/-- The first record of the example scenario. -/
def rec1 : LogRecord :=
  { id := 1, connected := true, timestamp := "10:00:00", ipAddress := none,
    networkType := none, signalStrength := none, statusMessage := "Connected" }

/-- The second record of the example scenario. -/
def rec2 : LogRecord :=
  { id := 2, connected := false, timestamp := "10:00:05", ipAddress := some "10.0.0.7",
    networkType := some "WIFI", signalStrength := some 0, statusMessage := "Connection lost" }

/-- The third record of the example scenario. -/
def rec3 : LogRecord :=
  { id := 3, connected := true, timestamp := "10:00:10", ipAddress := some "10.0.0.7",
    networkType := some "WIFI", signalStrength := some (-55),
    statusMessage := "Connection restored" }

/-- A record whose message contains both "lost" and "restored". -/
def recBoth : LogRecord :=
  { rec2 with id := 4, statusMessage := "Link LOST, not yet restored" }

/-- A record whose message has none of the three patterns. -/
def recPlain : LogRecord :=
  { rec1 with id := 5, timestamp := "10:00:15", statusMessage := "Roaming" }

/-- A record whose message differs from the banner text only by case. -/
def recLower : LogRecord :=
  { rec3 with id := 6, statusMessage := "connection restored" }

/-- A record whose message differs from the banner text by a final full stop. -/
def recDot : LogRecord :=
  { rec3 with id := 7, statusMessage := "Connection restored." }

/-- A storage left by an earlier page load, holding one cached snapshot. -/
def staleStorage : Storage :=
  Storage.empty.setItem cacheKey (.list [rec1])

/-- A body of a 2xx response that does not parse as JSON. -/
def htmlBody : String := "<html>Service restarting</html>"

end NetworkMonitor

namespace NetworkMonitor

/-! ## Storage lemmas -/

theorem getItem_setItem (st : Storage) (key : String) (value : Payload) :
    (st.setItem key value).getItem key = some value := by
  simp [Storage.getItem, Storage.setItem]

theorem getItem_setItem_of_ne (st : Storage) (key k : String) (value : Payload)
    (h : k ≠ key) : (st.setItem key value).getItem k = st.getItem k := by
  simp [Storage.getItem, Storage.setItem, h]

theorem catchBlock_storage (s : PollState) : (catchBlock s).storage = s.storage := by
  unfold catchBlock
  cases s.storage.getItem cacheKey <;> rfl

theorem catchBlock_logs_of_some (s : PollState) (c : Payload)
    (h : s.storage.getItem cacheKey = some c) : (catchBlock s).logs = c := by
  simp [catchBlock, h]

theorem catchBlock_logs_of_none (s : PollState)
    (h : s.storage.getItem cacheKey = none) : (catchBlock s).logs = s.logs := by
  simp [catchBlock, h]

theorem catchBlock_agree (s : PollState) (c : Payload)
    (h : (catchBlock s).storage.getItem cacheKey = some c) : (catchBlock s).logs = c := by
  rw [catchBlock_storage] at h
  exact catchBlock_logs_of_some s c h

theorem fetchLogs_agree (r : Response) (w : WriteResult) (s : PollState) (c : Payload)
    (h : (fetchLogs r w s).storage.getItem cacheKey = some c) :
    (fetchLogs r w s).logs = c := by
  cases r with
  | resolved data =>
      cases w with
      | returned =>
          simp only [fetchLogs, getItem_setItem, Option.some.injEq] at h
          simpa [fetchLogs] using h
      | threw => exact catchBlock_agree _ c h
  | rejected => exact catchBlock_agree _ c h

/-! ## Poller -/

/-- C1, as written, fails. A successful request returning `[rec1, rec2]` whose
cache write throws, over a storage that holds `[rec1]`, followed by a rejected
request, leaves `[rec1]` as the current snapshot and in the cache; and after a
poll that stored `[rec1, rec2]`, a 2xx response whose body does not parse
(a failure in the words of the spec) puts the raw body in the current
snapshot and in the cache. -/
theorem cache_fallback_counterexample :
    (fetchLogs .rejected .returned
        (fetchLogs (.resolved (.list [rec1, rec2])) .threw
          (PollState.init staleStorage))).logs ≠ .list [rec1, rec2] ∧
    (fetchLogs .rejected .returned
        (fetchLogs (.resolved (.list [rec1, rec2])) .threw
          (PollState.init staleStorage))).storage.getItem cacheKey
      ≠ some (.list [rec1, rec2]) ∧
    (fetchLogs (.resolved (.raw htmlBody)) .returned
        (fetchLogs (.resolved (.list [rec1, rec2])) .returned
          (PollState.init Storage.empty))).logs ≠ .list [rec1, rec2] ∧
    (fetchLogs (.resolved (.raw htmlBody)) .returned
        (fetchLogs (.resolved (.list [rec1, rec2])) .returned
          (PollState.init Storage.empty))).storage.getItem cacheKey
      ≠ some (.list [rec1, rec2]) := by
  refine ⟨?_, ?_, ?_, ?_⟩ <;> decide

/-- C1, amended. Cache fallback: when a request resolved with the list `A` and
the cache write returned, `A` is under the cache key, and when the request of
the next poll is rejected, the current snapshot is `A` and the cache still
holds `A`, whatever the state before the two polls; more generally a rejected
request over any state whose cache holds `A` makes `A` the current snapshot
and leaves the storage as it was. -/
theorem cache_fallback (s : PollState) (A : Snapshot) (w : WriteResult) :
    (fetchLogs (.resolved (.list A)) .returned s).storage.getItem cacheKey
      = some (.list A) ∧
    (fetchLogs .rejected w (fetchLogs (.resolved (.list A)) .returned s)).logs
      = .list A ∧
    (fetchLogs .rejected w (fetchLogs (.resolved (.list A)) .returned s)).storage.getItem
      cacheKey = some (.list A) ∧
    (s.storage.getItem cacheKey = some (.list A) →
      (fetchLogs .rejected w s).logs = .list A ∧
      (fetchLogs .rejected w s).storage = s.storage) := by
  have h : (fetchLogs (.resolved (.list A)) .returned s).storage.getItem cacheKey
      = some (.list A) := by
    simp [fetchLogs, getItem_setItem]
  refine ⟨h, ?_, ?_, ?_⟩
  · exact catchBlock_logs_of_some _ _ h
  · show (catchBlock _).storage.getItem cacheKey = _
    rw [catchBlock_storage]
    exact h
  · intro hs
    exact ⟨catchBlock_logs_of_some s _ hs, catchBlock_storage s⟩

theorem cache_fallback_witness :
    (fetchLogs .rejected .returned
        (fetchLogs (.resolved (.list [rec1, rec2])) .returned
          (PollState.init staleStorage))).logs = .list [rec1, rec2] ∧
    (PollState.init staleStorage).storage.getItem cacheKey = some (.list [rec1]) ∧
    (PollState.init staleStorage).logs = .list [] ∧
    (fetchLogs .rejected .returned (PollState.init staleStorage)).logs = .list [rec1] :=
  ⟨(cache_fallback (PollState.init staleStorage) [rec1, rec2] .returned).2.1, rfl, rfl,
    ((cache_fallback (PollState.init staleStorage) [rec1] .returned).2.2.2 rfl).1⟩

/-- C2, as written, fails. With nothing under the cache key, a 2xx response
whose body does not parse (a failure in the words of the spec) replaces the
empty current snapshot by the raw body and writes it under the cache key. -/
theorem cache_miss_counterexample :
    (PollState.init Storage.empty).storage.getItem cacheKey = none ∧
    (fetchLogs (.resolved (.raw htmlBody)) .returned (PollState.init Storage.empty)).logs
      ≠ (PollState.init Storage.empty).logs ∧
    (fetchLogs (.resolved (.raw htmlBody)) .returned
        (PollState.init Storage.empty)).storage.getItem cacheKey ≠ none := by
  refine ⟨rfl, ?_, ?_⟩ <;> decide

/-- C2, amended. Cache miss: a poll whose request is rejected, with nothing
under the cache key, leaves the current snapshot as it was and the cache
absent. -/
theorem cache_miss (s : PollState) (w : WriteResult)
    (h : s.storage.getItem cacheKey = none) :
    (fetchLogs .rejected w s).logs = s.logs ∧
    (fetchLogs .rejected w s).storage.getItem cacheKey = none := by
  refine ⟨catchBlock_logs_of_none s h, ?_⟩
  show (catchBlock s).storage.getItem cacheKey = none
  rw [catchBlock_storage]
  exact h

theorem cache_miss_witness :
    (PollState.init Storage.empty).storage.getItem cacheKey = none ∧
    (fetchLogs .rejected .returned (PollState.init Storage.empty)).logs = .list [] ∧
    (fetchLogs .rejected .returned (PollState.init Storage.empty)).storage.getItem cacheKey
      = none :=
  ⟨rfl, cache_miss (PollState.init Storage.empty) .returned rfl⟩

/-- C3, as written, fails. A request that resolves with `[rec1, rec2]` whose
cache write throws, over a storage that holds `[rec1]`, leaves `[rec1]` as
the current snapshot and in the cache; over an empty storage it leaves the
cache absent. -/
theorem success_replaces_counterexample :
    (fetchLogs (.resolved (.list [rec1, rec2])) .threw (PollState.init staleStorage)).logs
      = .list [rec1] ∧
    (fetchLogs (.resolved (.list [rec1, rec2])) .threw (PollState.init staleStorage)).logs
      ≠ .list [rec1, rec2] ∧
    (fetchLogs (.resolved (.list [rec1, rec2])) .threw
        (PollState.init staleStorage)).storage.getItem cacheKey
      ≠ some (.list [rec1, rec2]) ∧
    (fetchLogs (.resolved (.list [rec1, rec2])) .threw
        (PollState.init Storage.empty)).storage.getItem cacheKey = none := by
  refine ⟨rfl, ?_, ?_, rfl⟩ <;> decide

/-- C3, amended. Total replacement: after a poll whose request resolved with
the list `S` and whose cache write returned, the current snapshot is `S` and
the snapshot under the cache key is `S`, whatever the state before. -/
theorem success_replaces (s : PollState) (S : Snapshot) :
    (fetchLogs (.resolved (.list S)) .returned s).logs = .list S ∧
    (fetchLogs (.resolved (.list S)) .returned s).storage.getItem cacheKey
      = some (.list S) := by
  simp [fetchLogs, getItem_setItem]

/-! ## Transition notifier -/

/-- C4. Cold-start suppression: from the unset state the effect raises no toast
on any snapshot, and on a non-empty snapshot the state becomes the status
message of the last record. -/
theorem cold_start_suppression (logs : Snapshot) :
    (statusEffect none logs).2 = [] ∧
    ∀ latest, logs.getLast? = some latest →
      (statusEffect none logs).1 = some latest.statusMessage := by
  constructor
  · cases h : logs.getLast? <;> simp [statusEffect, h]
  · intro latest h
    simp [statusEffect, h]

theorem cold_start_suppression_witness :
    (statusEffect none [rec1, rec2]).2 = [] ∧
    (statusEffect none [rec3]).2 = [] ∧
    [rec1, rec2].getLast? = some rec2 ∧
    (statusEffect none [rec1, rec2]).1 = some "Connection lost" :=
  ⟨(cold_start_suppression [rec1, rec2]).1, (cold_start_suppression [rec3]).1, rfl,
    (cold_start_suppression [rec1, rec2]).2 rec2 rfl⟩

/-- C5. Lost event: from a set state `p`, on a snapshot whose last record has a
message different from `p` that contains "lost" or "disconnected" in lower
case, the effect raises exactly one toast, an error toast whose text is built
from that message and that record's timestamp, and the state becomes the
message; the effect run again on any snapshot whose last message is the same
raises no toast. -/
theorem lost_event (p : String) (logs : Snapshot) (latest : LogRecord)
    (hlast : logs.getLast? = some latest)
    (hne : latest.statusMessage ≠ p)
    (hlost : includes (toLowerCase latest.statusMessage) "lost" = true ∨
      includes (toLowerCase latest.statusMessage) "disconnected" = true) :
    (statusEffect (some p) logs).2 =
      [{ kind := .error
         text := "⚠️ " ++ latest.statusMessage ++ " at " ++ latest.timestamp }] ∧
    (statusEffect (some p) logs).1 = some latest.statusMessage ∧
    ∀ (logs2 : Snapshot) (latest2 : LogRecord), logs2.getLast? = some latest2 →
      latest2.statusMessage = latest.statusMessage →
      (statusEffect (statusEffect (some p) logs).1 logs2).2 = [] := by
  have h1 : (statusEffect (some p) logs).1 = some latest.statusMessage := by
    simp [statusEffect, hlast]
  refine ⟨?_, h1, ?_⟩
  · have hp : ¬ p = latest.statusMessage := fun h => hne h.symm
    rcases hlost with h | h <;> simp [statusEffect, hlast, hp, h, errorText]
  · intro logs2 latest2 h2 hsame
    rw [h1]
    simp [statusEffect, h2, hsame]

theorem lost_event_witness :
    [rec1, rec2].getLast? = some rec2 ∧
    rec2.statusMessage ≠ "Connected" ∧
    (statusEffect (some "Connected") [rec1, rec2]).2 =
      [{ kind := .error, text := "⚠️ Connection lost at 10:00:05" }] ∧
    (statusEffect (statusEffect (some "Connected") [rec1, rec2]).1 [rec1, rec2, rec2]).2 = [] ∧
    includes (toLowerCase recBoth.statusMessage) "restored" = true ∧
    (statusEffect (some "Connected") [rec1, recBoth]).2 =
      [{ kind := .error, text := "⚠️ Link LOST, not yet restored at 10:00:05" }] :=
  have h := lost_event "Connected" [rec1, rec2] rec2 rfl (by decide) (Or.inl (by decide))
  ⟨rfl, by decide, h.1, h.2.2 [rec1, rec2, rec2] rec2 rfl rfl, by decide,
    (lost_event "Connected" [rec1, recBoth] recBoth rfl (by decide) (Or.inl (by decide))).1⟩

/-- C6. Restored event: from a set state `p`, on a snapshot whose last record
has a message different from `p` that contains "restored" and neither "lost"
nor "disconnected" in lower case, the effect raises exactly one toast, a
success toast whose text is built from that message and that record's
timestamp. -/
theorem restored_event (p : String) (logs : Snapshot) (latest : LogRecord)
    (hlast : logs.getLast? = some latest)
    (hne : latest.statusMessage ≠ p)
    (hrestored : includes (toLowerCase latest.statusMessage) "restored" = true)
    (hnolost : includes (toLowerCase latest.statusMessage) "lost" = false)
    (hnodisc : includes (toLowerCase latest.statusMessage) "disconnected" = false) :
    (statusEffect (some p) logs).2 =
      [{ kind := .success
         text := "✅ " ++ latest.statusMessage ++ " at " ++ latest.timestamp }] ∧
    ∀ t ∈ (statusEffect (some p) logs).2, t.kind ≠ .error := by
  have hp : ¬ p = latest.statusMessage := fun h => hne h.symm
  have h : (statusEffect (some p) logs).2 =
      [{ kind := .success
         text := "✅ " ++ latest.statusMessage ++ " at " ++ latest.timestamp }] := by
    simp [statusEffect, hlast, hp, hrestored, hnolost, hnodisc, successText]
  refine ⟨h, ?_⟩
  intro t ht
  rw [h] at ht
  simp only [List.mem_singleton] at ht
  simp [ht]

theorem restored_event_witness :
    [rec1, rec2, rec3].getLast? = some rec3 ∧
    rec3.statusMessage ≠ "Connection lost" ∧
    (statusEffect (some "Connection lost") [rec1, rec2, rec3]).2 =
      [{ kind := .success, text := "✅ Connection restored at 10:00:10" }] :=
  ⟨rfl, by decide,
    (restored_event "Connection lost" [rec1, rec2, rec3] rec3 rfl (by decide)
      (by decide) (by decide) (by decide)).1⟩

/-- C7. State update: on a non-empty snapshot the state after the effect is the
status message of the last record, from any state; when that message differs
from a set state and contains none of "lost", "disconnected", "restored" in
lower case, no toast is raised; on the empty snapshot no toast is raised and
the state is unchanged. -/
theorem state_update (prev : Option String) (logs : Snapshot) :
    (∀ latest, logs.getLast? = some latest →
      (statusEffect prev logs).1 = some latest.statusMessage) ∧
    (∀ latest, logs.getLast? = some latest →
      prev ≠ some latest.statusMessage →
      includes (toLowerCase latest.statusMessage) "lost" = false →
      includes (toLowerCase latest.statusMessage) "disconnected" = false →
      includes (toLowerCase latest.statusMessage) "restored" = false →
      (statusEffect prev logs).2 = []) ∧
    statusEffect prev [] = (prev, []) := by
  refine ⟨?_, ?_, ?_⟩
  · intro latest h
    simp [statusEffect, h]
  · intro latest h _ h1 h2 h3
    cases prev <;> simp [statusEffect, h, h1, h2, h3]
  · simp [statusEffect]

theorem state_update_witness :
    [rec1, recPlain].getLast? = some recPlain ∧
    some "Connected" ≠ some recPlain.statusMessage ∧
    (statusEffect (some "Connected") [rec1, recPlain]).1 = some "Roaming" ∧
    (statusEffect (some "Connected") [rec1, recPlain]).2 = [] ∧
    statusEffect (some "Connected") [] = (some "Connected", []) :=
  have h := state_update (some "Connected") [rec1, recPlain]
  ⟨rfl, by decide, h.1 recPlain rfl,
    h.2.1 recPlain rfl (by decide) (by decide) (by decide) (by decide),
    (state_update (some "Connected") []).2.2⟩

/-! ## Banners -/

/-- C8. Banner predicates: the danger banner is active exactly when the
snapshot has a last record and that record is not connected; the success
banner is active exactly when the snapshot has a last record whose status
message is the text "Connection restored"; a last message "connection restored"
or "Connection restored." leaves the success banner inactive although the
effect, from a set state with another message, raises the success toast. -/
theorem banner_predicates (logs : Snapshot) :
    (dangerBanner logs = true ↔
      ∃ latest, logs.getLast? = some latest ∧ latest.connected = false) ∧
    (successBanner logs = true ↔
      ∃ latest, logs.getLast? = some latest ∧
        latest.statusMessage = "Connection restored") ∧
    ∀ latest, logs.getLast? = some latest →
      latest.statusMessage = "connection restored" ∨
        latest.statusMessage = "Connection restored." →
      successBanner logs = false ∧
      ∀ p, p ≠ latest.statusMessage →
        (statusEffect (some p) logs).2 =
          [{ kind := .success
             text := "✅ " ++ latest.statusMessage ++ " at " ++ latest.timestamp }] := by
  refine ⟨?_, ?_, ?_⟩
  · cases h : logs.getLast? <;> simp [dangerBanner, h]
  · cases h : logs.getLast? <;> simp [successBanner, h]
  · intro latest h hm
    have hb : successBanner logs = false := by
      rcases hm with hm | hm <;> simp [successBanner, h, hm]
    refine ⟨hb, ?_⟩
    intro p hp
    have h1 : includes (toLowerCase latest.statusMessage) "restored" = true := by
      rcases hm with hm | hm <;> rw [hm] <;> decide
    have h2 : includes (toLowerCase latest.statusMessage) "lost" = false := by
      rcases hm with hm | hm <;> rw [hm] <;> decide
    have h3 : includes (toLowerCase latest.statusMessage) "disconnected" = false := by
      rcases hm with hm | hm <;> rw [hm] <;> decide
    simp [statusEffect, h, hp, h1, h2, h3, successText]

theorem banner_predicates_witness :
    dangerBanner [rec1, rec2] = true ∧
    successBanner [rec1, rec2] = false ∧
    dangerBanner [rec1, rec2, rec3] = false ∧
    successBanner [rec1, rec2, rec3] = true ∧
    dangerBanner [] = false ∧
    successBanner [] = false ∧
    successBanner [rec2, recLower] = false ∧
    (statusEffect (some "Connection lost") [rec2, recLower]).2 =
      [{ kind := .success, text := "✅ connection restored at 10:00:10" }] ∧
    successBanner [rec2, recDot] = false ∧
    (statusEffect (some "Connection lost") [rec2, recDot]).2 =
      [{ kind := .success, text := "✅ Connection restored. at 10:00:10" }] :=
  have hl := (banner_predicates [rec2, recLower]).2.2 recLower rfl (Or.inl rfl)
  have hd := (banner_predicates [rec2, recDot]).2.2 recDot rfl (Or.inr rfl)
  ⟨(banner_predicates [rec1, rec2]).1.2 ⟨rec2, rfl, rfl⟩, by decide, by decide,
    (banner_predicates [rec1, rec2, rec3]).2.1.2 ⟨rec3, rfl, rfl⟩, by decide, by decide,
    hl.1, hl.2 "Connection lost" (by decide), hd.1, hd.2 "Connection lost" (by decide)⟩

/-! ## View projections -/

/-- C9. View projections: for a snapshot of `n` records the chart has `n` labels
and `n` values and the table has `n` rows; at every index the label is the
formatted timestamp of the record there, the row is the row of the record
there, the chart value is the signal strength when present and `0` when
absent, and the signal cell is the number when present (also for `0`) and the
placeholder "-" when absent. -/
theorem view_projections (toLocaleTimeString : String → String) (logs : Snapshot) :
    (chartData toLocaleTimeString logs).labels.length = logs.length ∧
    (chartData toLocaleTimeString logs).data.length = logs.length ∧
    (tableRows logs).length = logs.length ∧
    ∀ (i : Nat) (log : LogRecord), logs[i]? = some log →
      (chartData toLocaleTimeString logs).labels[i]? =
        some (toLocaleTimeString log.timestamp) ∧
      (tableRows logs)[i]? = some (tableRow log) ∧
      (tableRow log).id = .number log.id ∧
      (tableRow log).timestamp = .text log.timestamp ∧
      (tableRow log).statusMessage = .text log.statusMessage ∧
      (∀ v, log.signalStrength = some v →
        (chartData toLocaleTimeString logs).data[i]? = some v ∧
        (tableRow log).signalStrength = .number v) ∧
      (log.signalStrength = none →
        (chartData toLocaleTimeString logs).data[i]? = some 0 ∧
        (tableRow log).signalStrength = .text "-") := by
  refine ⟨by simp [chartData], by simp [chartData], by simp [tableRows], ?_⟩
  intro i log h
  refine ⟨by simp [chartData, h], by simp [tableRows, h], rfl, rfl, rfl, ?_, ?_⟩
  · intro v hv
    simp [chartData, h, hv, tableRow, signalCell]
  · intro hv
    simp [chartData, h, hv, tableRow, signalCell]

theorem view_projections_witness :
    [rec1, rec2, rec3][1]? = some rec2 ∧
    rec2.signalStrength = some 0 ∧
    (chartData id [rec1, rec2, rec3]).data[1]? = some 0 ∧
    (tableRow rec2).signalStrength = .number 0 ∧
    [rec1, rec2, rec3][0]? = some rec1 ∧
    rec1.signalStrength = none ∧
    (chartData id [rec1, rec2, rec3]).data[0]? = some 0 ∧
    (tableRow rec1).signalStrength = .text "-" ∧
    (chartData id [rec1, rec2, rec3]).labels = ["10:00:00", "10:00:05", "10:00:10"] ∧
    (chartData id [rec1, rec2, rec3]).data = [0, 0, -55] :=
  have h := (view_projections id [rec1, rec2, rec3]).2.2.2
  ⟨rfl, rfl, ((h 1 rec2 rfl).2.2.2.2.2.1 0 rfl).1, ((h 1 rec2 rfl).2.2.2.2.2.1 0 rfl).2,
    rfl, rfl, ((h 0 rec1 rfl).2.2.2.2.2.2 rfl).1, ((h 0 rec1 rfl).2.2.2.2.2.2 rfl).2,
    by decide, by decide⟩

/-! ## Store and cache agreement -/

/-- C10. Store and cache agreement: after one poll, and so after any non-empty
run of polls, from any state and however each request and each cache write
ended, a value present under the cache key equals the current value of
`logs`; before the first poll the two can differ, as in a freshly mounted
component over a storage kept from an earlier page load. -/
theorem store_cache_agreement :
    (∀ (r : Response) (w : WriteResult) (s : PollState) (c : Payload),
      (fetchLogs r w s).storage.getItem cacheKey = some c → (fetchLogs r w s).logs = c) ∧
    (∀ (rs : List (Response × WriteResult)) (s : PollState) (c : Payload), rs ≠ [] →
      (runPolls rs s).storage.getItem cacheKey = some c → (runPolls rs s).logs = c) ∧
    ∃ (s : PollState) (c : Payload), s.storage.getItem cacheKey = some c ∧ s.logs ≠ c := by
  refine ⟨fetchLogs_agree, ?_, ?_⟩
  · intro rs s c hrs
    rcases List.eq_nil_or_concat rs with h | ⟨init, r, h⟩
    · exact absurd h hrs
    · subst h
      simp only [runPolls, List.concat_eq_append, List.foldl_append, List.foldl_cons,
        List.foldl_nil]
      exact fetchLogs_agree r.1 r.2 _ c
  · exact ⟨PollState.init staleStorage, .list [rec1], rfl, by decide⟩

theorem store_cache_agreement_witness :
    (fetchLogs .rejected .returned (PollState.init staleStorage)).storage.getItem cacheKey
      = some (.list [rec1]) ∧
    (fetchLogs .rejected .returned (PollState.init staleStorage)).logs = .list [rec1] ∧
    (fetchLogs (.resolved (.list [rec1, rec2])) .threw
        (PollState.init staleStorage)).logs = .list [rec1] ∧
    [(Response.resolved (.list [rec1, rec2]), WriteResult.returned),
      (Response.rejected, WriteResult.returned)] ≠ [] ∧
    (runPolls [(.resolved (.list [rec1, rec2]), .returned), (.rejected, .returned)]
        (PollState.init staleStorage)).logs = .list [rec1, rec2] :=
  ⟨rfl,
    store_cache_agreement.1 .rejected .returned (PollState.init staleStorage)
      (.list [rec1]) rfl,
    store_cache_agreement.1 (.resolved (.list [rec1, rec2])) .threw
      (PollState.init staleStorage) (.list [rec1]) rfl,
    by decide,
    store_cache_agreement.2.1 [(.resolved (.list [rec1, rec2]), .returned),
        (.rejected, .returned)]
      (PollState.init staleStorage) (.list [rec1, rec2]) (by decide) rfl⟩

end NetworkMonitor
